import Mathlib

/-!
Shallow embedding of the melcloud control loop (`main.py`) and verification
of its specification claims.

Temperatures and epoch timestamps are modelled as rationals (the source uses
floating-point values only as exact decimal constants and device readings, so
rational arithmetic is a faithful model).  The external collaborators (weather
source, device transport, Telegram channel, filesystem) are modelled by their
observable behaviour: the weather fetch result is an `Option`, a device `set`
call either succeeds or raises, and file writes are recorded in the cycle
output instead of performed.
-/

namespace Melcloud

/-- Control constant `UMBRAL_SEGURIDAD_FRIO = -2.0` from the source. -/
def umbralSeguridad : ℚ := -2

/-- Control constant `UMBRAL_BUEN_TIEMPO_INVIERNO = 19.0` from the source. -/
def umbralBuenTiempoInvierno : ℚ := 19

/-- Control constant `UMBRAL_CORTE_VERANO = 22.0` from the source. -/
def umbralCorteVerano : ℚ := 22

/-- Control constant `DURACION_BLOQUEO_MANUAL = 3600` seconds from the source. -/
def duracionBloqueoManual : ℚ := 3600

/-- Per-device objective table `TEMP_OBJETIVOS` from the source.
`mkRat 45 2` is the literal `22.5`. -/
def tempObjetivos (n : String) : Option ℚ :=
  if n = ("Salón") then some (mkRat 45 2)
  else if n = ("Dormitorio") then some 21
  else if n = ("Jimena") then some 21
  else if n = ("Elisa") then some 21
  else none

/-- Fallback objective `DEFAULT_TEMP_AUTO = 21.0` from the source. -/
def defaultTempAuto : ℚ := 21

/-- The objective temperature used for a device,
`TEMP_OBJETIVOS.get(dev.name, DEFAULT_TEMP_AUTO)`. -/
def objetivoDe (n : String) : ℚ :=
  (tempObjetivos n).getD defaultTempAuto

/-- A device as observed through the registry: name, current power state and
current target temperature. -/
structure Device where
  name : String
  power : Bool
  target_temperature : ℚ
  deriving DecidableEq, Repr

/-- One entry of the persisted memory store (`estado_melcloud.json`). -/
structure DeviceMemory where
  power : Bool
  target_temperature : ℚ
  bloqueo_hasta : ℚ
  deriving DecidableEq, Repr

/-- The persisted memory store: a finite map from device name to memory,
modelled as an association list (Python `dict`). -/
abbrev Store := List (String × DeviceMemory)

/-- Lookup in the store (`estados_previos.get(name)` without default). -/
def findMem : Store → String → Option DeviceMemory
  | [], _ => none
  | (k, v) :: rest, n => if k = n then some v else findMem rest n

/-- Store lookup with the default used at the top of the per-device loop:
`estados_previos.get(dev.name, {"power": dev.power,
"target_temperature": dev.target_temperature, "bloqueo_hasta": 0})`. -/
def getMem (s : Store) (n : String) (obsPower : Bool) (obsTarget : ℚ) : DeviceMemory :=
  match findMem s n with
  | some m => m
  | none => ⟨obsPower, obsTarget, 0⟩

/-- Store assignment `estados_previos[name] = mem` (replace or append). -/
def setMem : Store → String → DeviceMemory → Store
  | [], n, m => [(n, m)]
  | (k, v) :: rest, n, m => if k = n then (n, m) :: rest else (k, v) :: setMem rest n m

/-- The global registry (`ultima_accion.json`), after the defaulting of
missing keys done at the start of `main`. -/
structure Registro where
  last_telegram_update_id : Int
  stop_mode : Bool
  deriving DecidableEq, Repr

/-- A device command as passed to `dev.set(...)`. -/
inductive DevCommand where
  /-- `dev.set({"power": False})` -/
  | setOff : DevCommand
  /-- `dev.set({"power": True, "target_temperature": t, "operation_mode": "heat"})` -/
  | setHeat : ℚ → DevCommand
  deriving DecidableEq, Repr

/-- The user-facing notifications sent with `enviar_telegram`, abstracted to
their kind (the formatted text is out of scope). -/
inductive Notif where
  | cambioManual : String → Notif
  | seguridad : String → Notif
  | fresco : String → Notif
  | stopApagado : String → Notif
  | noche : String → Notif
  | apoyo : String → ℚ → Notif
  | bloqueosReseteados : Notif
  | stopActivado : Notif
  | startActivado : Notif
  | informe : Notif
  | alertaCaldera : Notif
  deriving DecidableEq, Repr

/-- Result of processing one device inside the loop: either the loop body ran
to completion (possibly issuing one command), or the `dev.set` call raised and
the exception escapes the loop.  In both cases the store already contains the
line-171 refresh (`estados_previos[dev.name] = mem`), and the notifications
already sent are recorded. -/
inductive StepResult where
  | ok : Store → Option DevCommand → List Notif → StepResult
  | failed : Store → List Notif → StepResult
  deriving DecidableEq, Repr

/-- The store held by a step result. -/
def StepResult.storeOf : StepResult → Store
  | .ok s _ _ => s
  | .failed s _ => s

/-- The command issued by a step result, if any. -/
def StepResult.cmdOf : StepResult → Option DevCommand
  | .ok _ c _ => c
  | .failed _ _ => none

/-- Prepend earlier notifications to a step result. -/
def StepResult.withNotifs (pre : List Notif) : StepResult → StepResult
  | .ok s c ns => .ok s c (pre ++ ns)
  | .failed s ns => .failed s (pre ++ ns)

/-- Lines 163-170 of the source: manual-change detection (arming a lockout
when a deviation is observed outside an active lockout, with its
notification) followed by the unconditional refresh of `power` and
`target_temperature` to the observed values. -/
def detectRefresh (now : ℚ) (mem : DeviceMemory) (d : Device) : DeviceMemory × List Notif :=
  let armed :=
    if mem.power ≠ d.power ∨ mem.target_temperature ≠ d.target_temperature then
      if now > mem.bloqueo_hasta then
        ({ mem with bloqueo_hasta := now + duracionBloqueoManual },
         [Notif.cambioManual d.name])
      else (mem, [])
    else (mem, [])
  ({ armed.1 with power := d.power, target_temperature := d.target_temperature }, armed.2)

/-- Lines 177-214 of the source: the decision engine evaluated for a device
that is not skipped by the lockout check.  `apOk` tells whether the device's
`set` call succeeds; when it raises, the memory assignments after it are not
executed and the exception escapes (`.failed`).  `mem` is the refreshed
memory already stored for the device, `store` the store after line 171. -/
def policyStep (t : ℚ) (inv hor stop : Bool) (apOk : Bool) (d : Device)
    (mem : DeviceMemory) (store : Store) : StepResult :=
  let obj := objetivoDe d.name
  if t < umbralSeguridad then
    if d.power then
      if apOk then
        .ok (setMem store d.name { mem with power := false })
          (some DevCommand.setOff) [Notif.seguridad d.name]
      else .failed store []
    else .ok store none []
  else if inv = false ∧ t < umbralCorteVerano then
    if d.power then
      if apOk then
        .ok (setMem store d.name { mem with power := false })
          (some DevCommand.setOff) [Notif.fresco d.name]
      else .failed store []
    else .ok store none []
  else if stop then
    if d.power then
      if apOk then
        .ok (setMem store d.name { mem with power := false })
          (some DevCommand.setOff) [Notif.stopApagado d.name]
      else .failed store []
    else .ok store none []
  else if inv then
    if hor = false then
      if d.power then
        if apOk then
          .ok (setMem store d.name { mem with power := false })
            (some DevCommand.setOff) [Notif.noche d.name]
        else .failed store []
      else .ok store none []
    else if hor = true ∧ t ≤ umbralBuenTiempoInvierno then
      if d.power = false ∨ d.target_temperature ≠ obj then
        if apOk then
          .ok (setMem store d.name { mem with power := true, target_temperature := obj })
            (some (DevCommand.setHeat obj)) [Notif.apoyo d.name obj]
        else .failed store []
      else .ok store none []
    else .ok store none []
  else .ok store none []

/-- The whole per-device loop body (lines 155-214): get-or-default the memory,
run detection and refresh, store the refreshed memory, skip policy evaluation
while `mem["bloqueo_hasta"] > ahora_ts`, otherwise run the decision engine. -/
def deviceStep (t : ℚ) (inv hor stop : Bool) (apOk : Bool) (now : ℚ)
    (store : Store) (d : Device) : StepResult :=
  let mem := getMem store d.name d.power d.target_temperature
  let pr := detectRefresh now mem d
  let store1 := setMem store d.name pr.1
  if pr.1.bloqueo_hasta > now then .ok store1 none pr.2
  else StepResult.withNotifs pr.2 (policyStep t inv hor stop apOk d pr.1 store1)

example :
    deviceStep (-3) true true false true 100 [(("Salón"), ⟨true, 20, 100⟩)]
      ⟨("Salón"), true, 20⟩ =
    .ok [(("Salón"), ⟨false, 20, 100⟩)] (some DevCommand.setOff)
      [Notif.seguridad ("Salón")] := by decide

example :
    deviceStep 18 true true false true 100 [] ⟨("Dormitorio"), true, 21⟩ =
    .ok [(("Dormitorio"), ⟨true, 21, 0⟩)] none [] := by decide

/-- Does `pat` occur at the head of `s`?  (helper for substring containment) -/
def leadMatch : List Char → List Char → Bool
  | [], _ => true
  | _ :: _, [] => false
  | a :: as, b :: bs => a == b && leadMatch as bs

/-- Substring containment, the semantics of Python `pat in s` on strings. -/
def hasSub (pat : List Char) : List Char → Bool
  | [] => leadMatch pat []
  | c :: rest => leadMatch pat (c :: rest) || hasSub pat rest

/-- Lowercasing of a message text, the semantics of Python `str.lower` for the
texts involved here (per-character lowercasing). -/
def lowerText (s : String) : List Char :=
  s.data.map Char.toLower

/-- The `/reset` directive body: `estados_previos[dev_name]["bloqueo_hasta"] = 0`
for every name in the store. -/
def resetLockouts (s : Store) : Store :=
  s.map fun p => (p.1, { p.2 with bloqueo_hasta := 0 })

/-- One inbound Telegram update: its `update_id` and message text. -/
structure TMsg where
  update_id : Int
  text : String
  deriving DecidableEq, Repr

/-- Lines 100-113 of the source: directive recognition on one message.
The four `if` statements are independent and run in order `/reset`, `/stop`,
`/start`, `/info` on the lowercased text, by substring containment; each
mutates the state it touches and sends its notification. -/
def processMessage (text : String) (reg : Registro) (store : Store) :
    Registro × Store × List Notif :=
  let low := lowerText text
  let p1 : Store × List Notif :=
    if hasSub (("/reset").data) low then (resetLockouts store, [Notif.bloqueosReseteados])
    else (store, [])
  let p2 : Registro × List Notif :=
    if hasSub (("/stop").data) low then ({ reg with stop_mode := true }, [Notif.stopActivado])
    else (reg, [])
  let p3 : Registro × List Notif :=
    if hasSub (("/start").data) low then ({ p2.1 with stop_mode := false }, [Notif.startActivado])
    else (p2.1, [])
  let p4 : List Notif :=
    if hasSub (("/info").data) low then [Notif.informe] else []
  (p3.1, p1.1, p1.2 ++ p2.2 ++ p3.2 ++ p4)

/-- Lines 98-113: the loop over polled updates.  Each result first advances
`last_telegram_update_id` to its id, then its text is matched for directives. -/
def processUpdates : List TMsg → Registro → Store → Registro × Store × List Notif
  | [], reg, store => (reg, store, [])
  | m :: rest, reg, store =>
    let r := processMessage m.text { reg with last_telegram_update_id := m.update_id } store
    let r2 := processUpdates rest r.1 r.2.1
    (r2.1, r2.2.1, r.2.2 ++ r2.2.2)

/-- Outcome of the per-device loop over all devices: either every body ran to
completion, or some `dev.set` raised, aborting the loop; commands issued and
notifications sent up to that point are recorded. -/
inductive LoopResult where
  | finished : Store → List (String × DevCommand) → List Notif → LoopResult
  | aborted : List (String × DevCommand) → List Notif → LoopResult
  deriving DecidableEq, Repr

/-- Pair an optional command with its device name. -/
def optCmd (n : String) : Option DevCommand → List (String × DevCommand)
  | some c => [(n, c)]
  | none => []

/-- The `for dev in devices:` loop of lines 155-214.  An exception from a
`dev.set` call propagates: devices after the failing one are not processed. -/
def devicesLoop (t : ℚ) (inv hor stop : Bool) (apOk : String → Bool) (now : ℚ)
    (store : Store) : List Device → LoopResult
  | [] => .finished store [] []
  | d :: rest =>
    match deviceStep t inv hor stop (apOk d.name) now store d with
    | .failed _ ns => .aborted [] ns
    | .ok store1 c ns =>
      match devicesLoop t inv hor stop apOk now store1 rest with
      | .finished s2 cs2 ns2 => .finished s2 (optCmd d.name c ++ cs2) (ns ++ ns2)
      | .aborted cs2 ns2 => .aborted (optCmd d.name c ++ cs2) (ns ++ ns2)

/-- The inputs of one cycle that come from the outside world: the weather
fetch result (`none` models a failed fetch or a malformed response), the
polled Telegram updates, the device list with freshly observed state, which
devices' `set` calls succeed, the epoch timestamp `ahora_ts`, the minute of
day, and the month. -/
structure CycleInput where
  weather : Option ℚ
  messages : List TMsg
  devices : List Device
  applyOk : String → Bool
  ahora_ts : ℚ
  minutos : ℕ
  month : ℕ

/-- `es_invierno = ahora.month >= 10 or ahora.month <= 5`. -/
def esInvierno (month : ℕ) : Bool :=
  decide (10 ≤ month) || decide (month ≤ 5)

/-- `en_horario = (390 <= minutos < 1380)`. -/
def enHorario (minutos : ℕ) : Bool :=
  decide (390 ≤ minutos) && decide (minutos < 1380)

/-- The observable outcome of one cycle: device commands issued, notifications
sent, the contents written to the two state files (`none` when the write was
never reached), whether the CSV row was appended, whether the cycle returned
early on a weather failure, and whether the top-level handler logged a fatal
trace. -/
structure CycleOutput where
  commands : List (String × DevCommand)
  notifs : List Notif
  savedStore : Option Store
  savedRegistro : Option Registro
  csvWritten : Bool
  weatherAborted : Bool
  fatalLogged : Bool
  deriving DecidableEq, Repr

/-- The device loop as invoked by the cycle, with the season/schedule flags,
stop mode and store produced by the earlier phases. -/
def devicesLoopOf (inp : CycleInput) (t : ℚ) (store0 : Store) (reg0 : Registro) :
    LoopResult :=
  devicesLoop t (esInvierno inp.month) (enHorario inp.minutos)
    (processUpdates inp.messages reg0 store0).1.stop_mode
    inp.applyOk inp.ahora_ts
    (processUpdates inp.messages reg0 store0).2.1 inp.devices

/-- The cycle after a successful weather fetch of `t`: boiler alert, Telegram
command processing, the device loop, and — only when the loop finished
without an exception — the final writes of lines 216-219. -/
def afterWeather (inp : CycleInput) (t : ℚ) (store0 : Store) (reg0 : Registro) :
    CycleOutput :=
  let alertNs : List Notif :=
    if esInvierno inp.month = true ∧ t ≤ 1 then [Notif.alertaCaldera] else []
  let pr := processUpdates inp.messages reg0 store0
  match devicesLoopOf inp t store0 reg0 with
  | .finished s cs ns =>
    ⟨cs, alertNs ++ pr.2.2 ++ ns, some s, some pr.1, true, false, false⟩
  | .aborted cs ns =>
    ⟨cs, alertNs ++ pr.2.2 ++ ns, none, none, false, false, true⟩

/-- One whole invocation (`main` under `run_safe`).  A failed weather fetch
returns from `main` before any device interaction and before any write. -/
def runCycle (inp : CycleInput) (store0 : Store) (reg0 : Registro) : CycleOutput :=
  match inp.weather with
  | none => ⟨[], [], none, none, false, true, false⟩
  | some t => afterWeather inp t store0 reg0

lemma findMem_setMem_self (s : Store) (n : String) (m : DeviceMemory) :
    findMem (setMem s n m) n = some m := by
  induction s with
  | nil => simp [setMem, findMem]
  | cons kv rest ih =>
    obtain ⟨k, v⟩ := kv
    by_cases hk : k = n
    · simp [setMem, findMem, hk]
    · simp [setMem, findMem, hk, ih]

lemma findMem_resetLockouts (s : Store) (n : String) :
    findMem (resetLockouts s) n
      = (findMem s n).map fun m => { m with bloqueo_hasta := 0 } := by
  induction s with
  | nil => simp [resetLockouts, findMem]
  | cons kv rest ih =>
    obtain ⟨k, v⟩ := kv
    by_cases hk : k = n
    · simp [resetLockouts, findMem, hk]
    · simpa [resetLockouts, findMem, hk] using ih

lemma withNotifs_nil (r : StepResult) : StepResult.withNotifs [] r = r := by
  cases r <;> simp [StepResult.withNotifs]

lemma cmdOf_withNotifs (pre : List Notif) (r : StepResult) :
    (StepResult.withNotifs pre r).cmdOf = r.cmdOf := by
  cases r <;> rfl

lemma storeOf_withNotifs (pre : List Notif) (r : StepResult) :
    (StepResult.withNotifs pre r).storeOf = r.storeOf := by
  cases r <;> rfl

/-- C1, counterexample.  At the exact boundary `now = lockout_until` the claim
fails: the stored memory of device Salón satisfies `now ≤ lockout_until`
(here `100 ≤ 100`) at the decision step, yet the safety rule issues a
power-off command, because the code skips policy evaluation only when
`lockout_until > now` holds strictly. -/
theorem C1_boundary_counterexample :
    (100 : ℚ) ≤ (getMem [(("Salón"), ⟨true, 20, 100⟩)] ("Salón") true 20).bloqueo_hasta
    ∧ (detectRefresh 100 (getMem [(("Salón"), ⟨true, 20, 100⟩)] ("Salón") true 20)
        ⟨("Salón"), true, 20⟩).1.bloqueo_hasta = 100
    ∧ (deviceStep (-3) true true false true 100 [(("Salón"), ⟨true, 20, 100⟩)]
        ⟨("Salón"), true, 20⟩).cmdOf = some DevCommand.setOff := by
  decide

/-- C1, amended.  For every device whose refreshed memory satisfies
`now < lockout_until` (strictly) at the per-device decision step, policy
evaluation is skipped entirely: no rule issues any command, whatever the
temperature, season, schedule or stop flag. -/
theorem C1_lockout_suppresses_automation (t : ℚ) (inv hor stop apOk : Bool)
    (now : ℚ) (store : Store) (d : Device)
    (h : now < (detectRefresh now
        (getMem store d.name d.power d.target_temperature) d).1.bloqueo_hasta) :
    deviceStep t inv hor stop apOk now store d =
      .ok (setMem store d.name
            (detectRefresh now (getMem store d.name d.power d.target_temperature) d).1)
        none
        (detectRefresh now (getMem store d.name d.power d.target_temperature) d).2 := by
  simp only [deviceStep]
  rw [if_pos h]

/-- Witness for the amended C1 at a concrete locked-out device. -/
theorem C1_lockout_witness :
    deviceStep (-3) true true false true 100 [(("X"), ⟨true, 20, 200⟩)]
      ⟨("X"), true, 20⟩ = .ok [(("X"), ⟨true, 20, 200⟩)] none [] := by
  rw [C1_lockout_suppresses_automation (-3) true true false true 100
    [(("X"), ⟨true, 20, 200⟩)] ⟨("X"), true, 20⟩ (by decide)]
  decide

/-- C3.  Safety precedence: whatever the season flag, schedule flag and stop
flag, if the outdoor temperature is below the safety threshold and the device
is not locked out, the decision is power-off — a power-off command when the
device is on, no command (it is already off) otherwise — and the stored
memory ends with `power = false`.  In particular no heat command is ever
issued in this situation. -/
theorem C3_safety_precedence (t : ℚ) (inv hor stop : Bool) (now : ℚ)
    (store : Store) (d : Device)
    (h1 : t < umbralSeguridad)
    (h2 : ¬ ((detectRefresh now
        (getMem store d.name d.power d.target_temperature) d).1.bloqueo_hasta > now)) :
    (deviceStep t inv hor stop true now store d).cmdOf
        = (if d.power = true then some DevCommand.setOff else none)
    ∧ Option.map DeviceMemory.power
        (findMem (deviceStep t inv hor stop true now store d).storeOf d.name)
        = some false := by
  have hpow : ∀ mem, (detectRefresh now mem d).1.power = d.power := fun _ => rfl
  simp only [deviceStep]
  rw [if_neg h2]
  constructor
  · rw [cmdOf_withNotifs]
    by_cases hp : d.power = true
    · simp [policyStep, if_pos h1, hp, StepResult.cmdOf]
    · simp [policyStep, if_pos h1, hp, StepResult.cmdOf]
  · rw [storeOf_withNotifs]
    by_cases hp : d.power = true
    · simp [policyStep, if_pos h1, hp, StepResult.storeOf, findMem_setMem_self]
    · simp [policyStep, if_pos h1, hp, StepResult.storeOf, findMem_setMem_self, hpow]

/-- Witness for C3: the spec scenario, outdoor -3 °C, winter, active hours,
Salón on at 20 °C, not locked out. -/
theorem C3_safety_witness :
    (deviceStep (-3) true true false true 100 [] ⟨("Salón"), true, 20⟩).cmdOf
        = some DevCommand.setOff
    ∧ Option.map DeviceMemory.power
        (findMem (deviceStep (-3) true true false true 100 [] ⟨("Salón"), true, 20⟩).storeOf
          ("Salón"))
        = some false := by
  have h := C3_safety_precedence (-3) true true false 100 [] ⟨("Salón"), true, 20⟩
    (by decide) (by decide)
  exact ⟨h.1.trans (by decide), h.2⟩

/-- C5.  Edge-triggered override: if the stored memory deviates from the
observed state and the device is not locked out, the first detection step arms
a lockout (`lockout_until = now + duration`) and notifies once; a second
detection step against the same observed state finds the refreshed memory
equal to the observation, triggers nothing, changes nothing and notifies
nothing. -/
theorem C5_edge_triggered_once (mem : DeviceMemory) (d : Device) (t1 t2 : ℚ)
    (hdev : mem.power ≠ d.power ∨ mem.target_temperature ≠ d.target_temperature)
    (hfree : t1 > mem.bloqueo_hasta) :
    (detectRefresh t1 mem d).1.bloqueo_hasta = t1 + duracionBloqueoManual
    ∧ (detectRefresh t1 mem d).2 = [Notif.cambioManual d.name]
    ∧ detectRefresh t2 (detectRefresh t1 mem d).1 d = ((detectRefresh t1 mem d).1, []) := by
  refine ⟨?_, ?_, ?_⟩
  · simp [detectRefresh, if_pos hdev, if_pos hfree]
  · simp [detectRefresh, if_pos hdev, if_pos hfree]
  · simp [detectRefresh, if_pos hdev, if_pos hfree]

/-- Witness for C5 at a concrete manual deviation. -/
theorem C5_edge_witness :
    (detectRefresh 100 ⟨false, 20, 0⟩ ⟨("S"), true, 20⟩).1.bloqueo_hasta
        = 100 + duracionBloqueoManual
    ∧ (detectRefresh 100 ⟨false, 20, 0⟩ ⟨("S"), true, 20⟩).2
        = [Notif.cambioManual ("S")]
    ∧ detectRefresh 200 (detectRefresh 100 ⟨false, 20, 0⟩ ⟨("S"), true, 20⟩).1
        ⟨("S"), true, 20⟩
        = ((detectRefresh 100 ⟨false, 20, 0⟩ ⟨("S"), true, 20⟩).1, []) :=
  C5_edge_triggered_once ⟨false, 20, 0⟩ ⟨("S"), true, 20⟩ 100 200
    (by decide) (by decide)

/-- C6.  Idempotence of the winter comfort rule: in winter, inside active
hours, with the stop flag off, the temperature at or below the winter-comfort
threshold and not below the safety threshold, a device that is already on
with its target equal to its configured objective gets no command and no
notification, and the store is untouched. -/
theorem C6_comfort_idempotent (t : ℚ) (apOk : Bool) (d : Device)
    (mem : DeviceMemory) (store : Store)
    (h1 : ¬ (t < umbralSeguridad)) (h2 : t ≤ umbralBuenTiempoInvierno)
    (h3 : d.power = true) (h4 : d.target_temperature = objetivoDe d.name) :
    policyStep t true true false apOk d mem store = .ok store none [] := by
  simp [policyStep, h1, h2, h3, h4]

/-- Witness for C6: the spec scenario device Dormitorio already on at its
objective 21 °C, outdoor 18 °C. -/
theorem C6_comfort_witness :
    policyStep 18 true true false true ⟨("Dormitorio"), true, 21⟩ ⟨true, 21, 0⟩ []
      = .ok [] none [] :=
  C6_comfort_idempotent 18 true ⟨("Dormitorio"), true, 21⟩ ⟨true, 21, 0⟩ []
    (by decide) (by decide) (by decide) (by decide)

/-- C7.  If the weather fetch fails or its response is malformed, the cycle
returns before issuing any device command and before writing any persisted
state: no commands, no notifications, neither state file written, no CSV row. -/
theorem C7_weather_failure_aborts (inp : CycleInput) (store0 : Store) (reg0 : Registro)
    (h : inp.weather = none) :
    runCycle inp store0 reg0 = ⟨[], [], none, none, false, true, false⟩ := by
  simp only [runCycle]
  rw [h]

/-- Witness for C7 at a concrete failed-weather cycle. -/
theorem C7_weather_witness :
    runCycle ⟨none, [], [⟨("Salón"), true, 20⟩], fun _ => true, 1000, 500, 1⟩ []
        ⟨0, false⟩ = ⟨[], [], none, none, false, true, false⟩ :=
  C7_weather_failure_aborts ⟨none, [], [⟨("Salón"), true, 20⟩], fun _ => true, 1000, 500, 1⟩
    [] ⟨0, false⟩ rfl

/-- C8.  Processing a message containing the reset directive leaves every
device — whether or not it has a store entry — with an effective
`lockout_until` of zero, so for any later instant `now ≥ 0` the lockout skip
condition is false and the engine may act on every device. -/
theorem C8_reset_clears_lockouts (text : String) (reg : Registro) (store : Store)
    (n : String) (p : Bool) (tt now : ℚ)
    (h : hasSub (("/reset").data) (lowerText text) = true) (h2 : 0 ≤ now) :
    (getMem (processMessage text reg store).2.1 n p tt).bloqueo_hasta = 0
    ∧ ¬ ((getMem (processMessage text reg store).2.1 n p tt).bloqueo_hasta > now) := by
  have hstore : (processMessage text reg store).2.1 = resetLockouts store := by
    simp [processMessage, h]
  have hz : (getMem (resetLockouts store) n p tt).bloqueo_hasta = 0 := by
    simp only [getMem, findMem_resetLockouts]
    cases findMem store n <;> simp
  rw [hstore]
  exact ⟨hz, by rw [hz]; exact not_lt.mpr h2⟩

/-- Witness for C8: a store with a device locked far into the future,
reset by a concrete `/reset` message. -/
theorem C8_reset_witness :
    (getMem (processMessage ("/reset") ⟨0, false⟩
        [(("Salón"), ⟨true, 20, 99999⟩)]).2.1 ("Salón") true 20).bloqueo_hasta = 0
    ∧ ¬ ((getMem (processMessage ("/reset") ⟨0, false⟩
        [(("Salón"), ⟨true, 20, 99999⟩)]).2.1 ("Salón") true 20).bloqueo_hasta > (1000 : ℚ)) :=
  C8_reset_clears_lockouts ("/reset") ⟨0, false⟩ [(("Salón"), ⟨true, 20, 99999⟩)]
    ("Salón") true 20 1000 (by decide) (by decide)

lemma getMem_resetLockouts_bloqueo (store : Store) (n : String) (p : Bool) (tt : ℚ) :
    (getMem (resetLockouts store) n p tt).bloqueo_hasta = 0 := by
  simp only [getMem, findMem_resetLockouts]
  cases findMem store n <;> simp

lemma policyStep_bloqueo (t : ℚ) (inv hor stop apOk : Bool) (d : Device)
    (mem : DeviceMemory) (store : Store) (h : findMem store d.name = some mem) :
    Option.map DeviceMemory.bloqueo_hasta
        (findMem (policyStep t inv hor stop apOk d mem store).storeOf d.name)
      = some mem.bloqueo_hasta := by
  simp only [policyStep]
  split_ifs <;> simp [StepResult.storeOf, findMem_setMem_self, h]

/-- C2, counterexample.  With outdoor -3 °C and two powered-on devices A and B
where A's `set` call raises, the cycle does not continue with B: the loop
aborts with no command recorded, nothing is persisted and the failure is only
caught by the top-level fatal handler — although B, run under the same
conditions, would have been commanded off.  This contradicts the claim that
an apply failure lets the cycle continue with the remaining devices. -/
theorem C2_apply_failure_counterexample :
    runCycle ⟨some (-3), [], [⟨("A"), true, 20⟩, ⟨("B"), true, 20⟩],
        fun n => !(n == ("A")), 1000, 500, 7⟩ [] ⟨0, false⟩
      = ⟨[], [], none, none, false, false, true⟩
    ∧ (deviceStep (-3) false true false false 1000 [] ⟨("A"), true, 20⟩
        = .failed [(("A"), ⟨true, 20, 0⟩)] [])
    ∧ (deviceStep (-3) false true false true 1000 [(("A"), ⟨true, 20, 0⟩)]
        ⟨("B"), true, 20⟩).cmdOf = some DevCommand.setOff := by
  refine ⟨by decide, by decide, by decide⟩

/-- C2, amended.  When a `dev.set` call raises, the exception escapes the
per-device loop: the failing device contributes no command, no later device
is processed, and the cycle ends with neither state file written and no CSV
row, the failure being logged only by the top-level handler; memory is not
advanced because nothing is persisted at all. -/
theorem C2_apply_failure_aborts_cycle :
    (∀ (t : ℚ) (inv hor stop : Bool) (apOk : String → Bool) (now : ℚ)
        (store : Store) (d : Device) (rest : List Device) (st : Store) (ns : List Notif),
      deviceStep t inv hor stop (apOk d.name) now store d = .failed st ns →
      devicesLoop t inv hor stop apOk now store (d :: rest) = .aborted [] ns)
    ∧ (∀ (inp : CycleInput) (t : ℚ) (store0 : Store) (reg0 : Registro)
        (cs : List (String × DevCommand)) (ns : List Notif),
      devicesLoopOf inp t store0 reg0 = .aborted cs ns →
      (afterWeather inp t store0 reg0).commands = cs
      ∧ (afterWeather inp t store0 reg0).savedStore = none
      ∧ (afterWeather inp t store0 reg0).savedRegistro = none
      ∧ (afterWeather inp t store0 reg0).csvWritten = false
      ∧ (afterWeather inp t store0 reg0).fatalLogged = true) := by
  constructor
  · intro t inv hor stop apOk now store d rest st ns h
    simp only [devicesLoop]
    rw [h]
  · intro inp t store0 reg0 cs ns h
    simp only [afterWeather]
    rw [h]
    exact ⟨rfl, rfl, rfl, rfl, rfl⟩

/-- Witness for the amended C2 at a concrete failing apply call. -/
theorem C2_apply_failure_abort_witness :
    devicesLoop (-3) false true false (fun _ => false) 1000 []
        (⟨("A"), true, 20⟩ :: [⟨("B"), true, 20⟩]) = .aborted [] []
    ∧ (afterWeather ⟨some (-3), [], [⟨("A"), true, 20⟩], fun _ => false, 1000, 500, 7⟩
        (-3) [] ⟨0, false⟩).savedStore = none := by
  constructor
  · exact C2_apply_failure_aborts_cycle.1 (-3) false true false (fun _ => false) 1000 []
      ⟨("A"), true, 20⟩ [⟨("B"), true, 20⟩] [(("A"), ⟨true, 20, 0⟩)] [] (by decide)
  · exact (C2_apply_failure_aborts_cycle.2 ⟨some (-3), [], [⟨("A"), true, 20⟩],
      fun _ => false, 1000, 500, 7⟩ (-3) [] ⟨0, false⟩ [] [] (by decide)).2.1

/-- C4.  The lockout invariant: the decision step stores exactly the
lockout value produced by detection (no policy branch alters it); detection
never decreases it; detection changes it only when a deviation is observed
while `lockout_until < now` (so the device is not inside an active window),
and then to `now + duration`; the inbound-command phase either leaves the
store alone or applies the explicit reset, which zeroes every lockout. -/
theorem C4_lockout_invariant :
    (∀ (t : ℚ) (inv hor stop apOk : Bool) (now : ℚ) (store : Store) (d : Device),
      Option.map DeviceMemory.bloqueo_hasta
          (findMem (deviceStep t inv hor stop apOk now store d).storeOf d.name)
        = some (detectRefresh now
            (getMem store d.name d.power d.target_temperature) d).1.bloqueo_hasta)
    ∧ (∀ (now : ℚ) (mem : DeviceMemory) (d : Device),
        mem.bloqueo_hasta ≤ (detectRefresh now mem d).1.bloqueo_hasta)
    ∧ (∀ (now : ℚ) (mem : DeviceMemory) (d : Device),
        (detectRefresh now mem d).1.bloqueo_hasta = mem.bloqueo_hasta
        ∨ ((mem.power ≠ d.power ∨ mem.target_temperature ≠ d.target_temperature)
            ∧ mem.bloqueo_hasta < now
            ∧ (detectRefresh now mem d).1.bloqueo_hasta = now + duracionBloqueoManual))
    ∧ (∀ (text : String) (reg : Registro) (store : Store),
        (processMessage text reg store).2.1 = store
        ∨ (processMessage text reg store).2.1 = resetLockouts store)
    ∧ (∀ (store : Store) (n : String) (p : Bool) (tt : ℚ),
        (getMem (resetLockouts store) n p tt).bloqueo_hasta = 0) := by
  refine ⟨?_, ?_, ?_, ?_, getMem_resetLockouts_bloqueo⟩
  · intro t inv hor stop apOk now store d
    simp only [deviceStep]
    split
    · simp [StepResult.storeOf, findMem_setMem_self]
    · rw [storeOf_withNotifs]
      exact policyStep_bloqueo t inv hor stop apOk d _ _ (findMem_setMem_self _ _ _)
  · intro now mem d
    have h0 : (0 : ℚ) < duracionBloqueoManual := by norm_num [duracionBloqueoManual]
    simp only [detectRefresh]
    split_ifs with hd hn
    · show mem.bloqueo_hasta ≤ now + duracionBloqueoManual
      linarith
    · exact le_rfl
    · exact le_rfl
  · intro now mem d
    simp only [detectRefresh]
    split_ifs with hd hn
    · exact Or.inr ⟨hd, hn, rfl⟩
    · exact Or.inl rfl
    · exact Or.inl rfl
  · intro text reg store
    simp only [processMessage]
    split_ifs <;> simp

/-- Witness for C4: the invariant instantiated at a concrete device step. -/
theorem C4_lockout_witness :
    Option.map DeviceMemory.bloqueo_hasta
        (findMem (deviceStep 18 true true false true 100 [] ⟨("Salón"), true, 20⟩).storeOf
          ("Salón"))
      = some (detectRefresh 100 (getMem [] ("Salón") true 20)
          ⟨("Salón"), true, 20⟩).1.bloqueo_hasta :=
  C4_lockout_invariant.1 18 true true false true 100 [] ⟨("Salón"), true, 20⟩

/-- C9.  Directive recognition is substring containment on the lowercased
text: the notifications sent for one message are exactly those of the
matching directives, in the fixed order reset, stop, start, info; the final
stop flag is off whenever `/start` occurs, else on whenever `/stop` occurs,
else unchanged; in particular one message carrying both `/stop` and `/start`
leaves stop mode disabled. -/
theorem C9_substring_directives :
    (∀ (text : String) (reg : Registro) (store : Store),
      (processMessage text reg store).2.2 =
        (if hasSub (("/reset").data) (lowerText text) then [Notif.bloqueosReseteados] else [])
        ++ (if hasSub (("/stop").data) (lowerText text) then [Notif.stopActivado] else [])
        ++ (if hasSub (("/start").data) (lowerText text) then [Notif.startActivado] else [])
        ++ (if hasSub (("/info").data) (lowerText text) then [Notif.informe] else []))
    ∧ (∀ (text : String) (reg : Registro) (store : Store),
        (processMessage text reg store).1.stop_mode =
          if hasSub (("/start").data) (lowerText text) then false
          else if hasSub (("/stop").data) (lowerText text) then true
          else reg.stop_mode)
    ∧ (∀ (reg : Registro) (store : Store),
        hasSub (("/stop").data) (lowerText ("pon /stop y luego /start")) = true
        ∧ hasSub (("/start").data) (lowerText ("pon /stop y luego /start")) = true
        ∧ (processMessage ("pon /stop y luego /start") reg store).1.stop_mode = false) := by
  refine ⟨?_, ?_, ?_⟩
  · intro text reg store
    simp only [processMessage]
    split_ifs <;> simp
  · intro text reg store
    simp only [processMessage]
    split_ifs <;> simp
  · intro reg store
    have h2 : hasSub (("/start").data) (lowerText ("pon /stop y luego /start")) = true := by
      decide
    exact ⟨by decide, h2, by simp [processMessage, h2]⟩

/-- Witness for C9: a concrete message carrying both `/stop` and `/start`. -/
theorem C9_substring_witness :
    (processMessage ("pon /stop y luego /start") ⟨0, false⟩ []).1.stop_mode = false :=
  (C9_substring_directives.2.2 ⟨0, false⟩ []).2.2

/-- C10.  A device with no entry in the store gets a default memory built from
its observed power and target with `lockout_until = 0`; its first processed
cycle can neither trigger manual-change detection nor arm a lockout, and the
decision step reduces to plain policy evaluation. -/
theorem C10_first_cycle_default (t : ℚ) (inv hor stop apOk : Bool) (now : ℚ)
    (store : Store) (d : Device)
    (h : findMem store d.name = none) (h2 : 0 ≤ now) :
    getMem store d.name d.power d.target_temperature
        = ⟨d.power, d.target_temperature, 0⟩
    ∧ detectRefresh now (getMem store d.name d.power d.target_temperature) d
        = (⟨d.power, d.target_temperature, 0⟩, [])
    ∧ deviceStep t inv hor stop apOk now store d
        = policyStep t inv hor stop apOk d ⟨d.power, d.target_temperature, 0⟩
            (setMem store d.name ⟨d.power, d.target_temperature, 0⟩) := by
  have hget : getMem store d.name d.power d.target_temperature
      = ⟨d.power, d.target_temperature, 0⟩ := by
    simp [getMem, h]
  have hdet : detectRefresh now (getMem store d.name d.power d.target_temperature) d
      = (⟨d.power, d.target_temperature, 0⟩, []) := by
    rw [hget]; simp [detectRefresh]
  refine ⟨hget, hdet, ?_⟩
  simp only [deviceStep, hdet]
  rw [if_neg (by simpa using not_lt.mpr h2)]
  exact withNotifs_nil _

/-- Witness for C10: a never-seen device on its first cycle. -/
theorem C10_first_cycle_witness :
    getMem [] ("Nuevo") false 19 = ⟨false, 19, 0⟩
    ∧ detectRefresh 50 (getMem [] ("Nuevo") false 19) ⟨("Nuevo"), false, 19⟩
        = (⟨false, 19, 0⟩, [])
    ∧ deviceStep 18 true true false true 50 [] ⟨("Nuevo"), false, 19⟩
        = policyStep 18 true true false true ⟨("Nuevo"), false, 19⟩ ⟨false, 19, 0⟩
            (setMem [] ("Nuevo") ⟨false, 19, 0⟩) :=
  C10_first_cycle_default 18 true true false true 50 [] ⟨("Nuevo"), false, 19⟩
    rfl (by decide)

end Melcloud
